import Mathlib

/-!
Shallow embedding of `mdns-peer/src/lib.rs` (iroh-mdns-ios-demo).

The library exposes a C lifecycle surface (`peer_start`, `peer_stop`,
`bob_start`, `bob_stop`) over process-wide singletons (a tokio runtime and a
broadcast shutdown channel, both in `OnceLock`s), an async session `run_peer`
that binds an endpoint, spawns a discovery-consumer task and runs a periodic
summary loop, and a desktop entry point `run_desktop` with its own local
shutdown channel driven by Ctrl+C.

Pure data and control decisions are translated directly from the source;
concurrency is modelled as explicit state (subscription flags on a process
state record, loop bodies as functions of the select outcome).
-/

/-- Log severity, mirroring `tracing::info!` / `tracing::warn!`. -/
inductive Level where
  | info
  | warn
deriving DecidableEq, Repr

/-- The distinct log messages emitted by `lib.rs`, with their data payloads.
Text formatting is abstracted into constructors; the payload carried by each
constructor is exactly the data interpolated by the corresponding `info!` or
`warn!` call in the source. -/
inductive LogMsg where
  | starting (identifier : String)                 -- "{} starting..."
  | nullIdentifier                                 -- "peer_start called with null identifier"
  | invalidUtf8Identifier                          -- "Invalid UTF-8 in identifier: {}"
  | stoppingPeer                                   -- "Stopping peer..."
  | shutdownSignalSent                             -- "Shutdown signal sent"
  | peerNeverStarted                               -- "Peer was never started"
  | creatingEndpoint                               -- "Creating endpoint with mDNS discovery..."
  | peerDiscoveredHeader                           -- "Peer discovered:"
  | nodeIdLine (nodeId : Nat)                      -- "  Node ID: {}"
  | userDataLine (userData : Option String)        -- "  User data: {:?}"
  | sourceLine (provenance : String)               -- "  Source: {}"
  | successDiscovered (userData : String)          -- "[[[ SUCCESS ]]]: Discovered peer ..."
  | noUserDataNote                                 -- "  Note: No user_data (legacy iroh peer ...)"
  | peerExpired (nodeId : Nat)                     -- "Peer expired: {}"
  | discoveryError (err : String)                  -- "Discovery error: {}"
  | discoveryShuttingDown                          -- "Discovery task shutting down..."
  | noPeersYet                                     -- "No peers discovered yet"
  | totalPeers (count : Nat)                       -- "Total peers in routing table: {}"
  | peerShuttingDown                               -- "Peer shutting down..."
  | peerShutdownComplete                           -- "Peer shutdown complete"
  | runningAs (identifier : String)                -- "Running as: {}"
deriving DecidableEq, Repr

/-- One emitted log line: a severity and a message. -/
structure LogEntry where
  level : Level
  msg : LogMsg
deriving DecidableEq, Repr

/-! ## UTF-8 validation

`peer_start` receives a `*const c_char`, reads it as a `CStr` (bytes up to the
NUL terminator) and decodes it with `CStr::to_str`, which performs full UTF-8
validation (rejecting overlong forms, surrogates and code points above
U+10FFFF). `utf8Decode` is that validator/decoder over the byte list,
returning the decoded scalar values. -/

/-- Is `b` a UTF-8 continuation byte (`0x80 ..= 0xBF`)? -/
def isCont (b : Nat) : Bool := 0x80 ≤ b && b ≤ 0xBF

/-- Decode a byte sequence as UTF-8, as `CStr::to_str` validates it:
`none` exactly when the bytes are not valid UTF-8, otherwise the list of
decoded Unicode scalar values. -/
def utf8Decode : List Nat → Option (List Nat)
  | [] => some []
  | b :: rest =>
    if b < 0x80 then
      (utf8Decode rest).map (fun cps => b :: cps)
    else if b < 0xC2 then
      none
    else if b < 0xE0 then
      match rest with
      | b1 :: rest2 =>
        if isCont b1 then
          (utf8Decode rest2).map (fun cps => ((b - 0xC0) * 0x40 + (b1 - 0x80)) :: cps)
        else none
      | [] => none
    else if b < 0xF0 then
      match rest with
      | b1 :: b2 :: rest3 =>
        let lo1 := if b == 0xE0 then 0xA0 else 0x80
        let hi1 := if b == 0xED then 0x9F else 0xBF
        if (lo1 ≤ b1 && b1 ≤ hi1) && isCont b2 then
          (utf8Decode rest3).map
            (fun cps => ((b - 0xE0) * 0x1000 + (b1 - 0x80) * 0x40 + (b2 - 0x80)) :: cps)
        else none
      | _ => none
    else if b < 0xF5 then
      match rest with
      | b1 :: b2 :: b3 :: rest4 =>
        let lo1 := if b == 0xF0 then 0x90 else 0x80
        let hi1 := if b == 0xF4 then 0x8F else 0xBF
        if ((lo1 ≤ b1 && b1 ≤ hi1) && isCont b2) && isCont b3 then
          (utf8Decode rest4).map
            (fun cps =>
              ((b - 0xF0) * 0x40000 + (b1 - 0x80) * 0x1000 +
                (b2 - 0x80) * 0x40 + (b3 - 0x80)) :: cps)
        else none
      | _ => none
    else none

/-- Decode a C-string byte payload to a Lean `String` (the result of
`CStr::to_str(..).ok()`). -/
def decodeStr (bs : List Nat) : Option String :=
  (utf8Decode bs).map (fun cps => String.mk (cps.map Char.ofNat))

/-! ## Process state

`lib.rs` keeps two process-wide `OnceLock`s: `RUNTIME` (a tokio runtime) and
`SHUTDOWN_SENDER` (a broadcast channel sender), plus a `Once` guard inside
`initialize_logging`.  `ProcState` records that state explicitly: whether
each singleton has been created, how many times each was created (to state
the at-most-once invariant), a fresh-channel-id counter (`broadcast::channel`
allocations, so the global coordinator and `run_desktop`'s local channel are
distinguishable), and the spawned sessions with the channel each one's
`shutdown_rx` subscription came from and whether the shutdown signal has
reached it. -/

/-- A spawned session: its identifier, the broadcast channel its
`shutdown_rx` subscribes to, and whether a shutdown signal has been
delivered to that subscription. -/
structure SessionRec where
  identifier : String
  chan : Nat
  signaled : Bool
deriving DecidableEq, Repr

/-- Process-wide state of the library. -/
structure ProcState where
  loggingInit : Bool
  runtimeInit : Bool
  runtimesCreated : Nat
  coordinator : Option Nat
  coordsCreated : Nat
  nextChan : Nat
  sessions : List SessionRec
deriving DecidableEq, Repr

/-- The state at process start: nothing created yet. -/
def initState : ProcState :=
  { loggingInit := false, runtimeInit := false, runtimesCreated := 0,
    coordinator := none, coordsCreated := 0, nextChan := 0, sessions := [] }

/-- `initialize_logging`: `Once::call_once` installs the subscriber on the
first call only. -/
def ensureLogging (s : ProcState) : ProcState :=
  if s.loggingInit then s else { s with loggingInit := true }

/-- `RUNTIME.get_or_init(|| Runtime::new() ...)`: create the runtime only if
absent. -/
def ensureRuntime (s : ProcState) : ProcState :=
  if s.runtimeInit then s
  else { s with runtimeInit := true, runtimesCreated := s.runtimesCreated + 1 }

/-- `SHUTDOWN_SENDER.get_or_init(|| broadcast::channel(1) ...)`: create the
coordinator channel only if absent; returns the channel id (the sender). -/
def ensureCoordinator (s : ProcState) : Nat × ProcState :=
  match s.coordinator with
  | some cid => (cid, s)
  | none =>
      (s.nextChan,
        { s with coordinator := some s.nextChan,
                 coordsCreated := s.coordsCreated + 1,
                 nextChan := s.nextChan + 1 })

/-- `start_peer(identifier)`: initialize logging, ensure runtime and
coordinator, subscribe a fresh `shutdown_rx` on the coordinator, spawn
`run_peer` on the runtime (recorded as a new session), return `true`. -/
def start_peer (identifier : String) (s : ProcState) :
    Bool × ProcState × List LogEntry :=
  let s0 := ensureLogging s
  let s1 := ensureRuntime s0
  let p := ensureCoordinator s1
  let s3 := { p.2 with sessions := p.2.sessions ++ [⟨identifier, p.1, false⟩] }
  (true, s3, [⟨Level.info, LogMsg.starting identifier⟩])

/-- `peer_start(identifier: *const c_char)`: `none` models a null pointer;
`some bs` the bytes the pointer designates up to the NUL terminator. Null or
invalid-UTF-8 input returns `false` with only a warning; otherwise
`start_peer` runs on the decoded string. -/
def peer_start (input : Option (List Nat)) (s : ProcState) :
    Bool × ProcState × List LogEntry :=
  match input with
  | none => (false, s, [⟨Level.warn, LogMsg.nullIdentifier⟩])
  | some bs =>
    match decodeStr bs with
    | none => (false, s, [⟨Level.warn, LogMsg.invalidUtf8Identifier⟩])
    | some id => start_peer id s

/-- `bob_start()`: legacy entry point, `start_peer("bob")`. -/
def bob_start (s : ProcState) : Bool × ProcState × List LogEntry :=
  start_peer "bob" s

/-- `sender.send(())` on channel `cid`: the broadcast reaches every
subscription on that channel. -/
def sendSignal (cid : Nat) (s : ProcState) : ProcState :=
  { s with sessions :=
      s.sessions.map (fun r => if r.chan = cid then { r with signaled := true } else r) }

/-- `peer_stop()`: if the coordinator exists, broadcast the shutdown signal;
otherwise warn that the peer was never started. -/
def peer_stop (s : ProcState) : ProcState × List LogEntry :=
  match s.coordinator with
  | some cid =>
      (sendSignal cid s,
        [⟨Level.info, LogMsg.stoppingPeer⟩, ⟨Level.info, LogMsg.shutdownSignalSent⟩])
  | none =>
      (s, [⟨Level.info, LogMsg.stoppingPeer⟩, ⟨Level.warn, LogMsg.peerNeverStarted⟩])

/-- `bob_stop()`: legacy entry point, `peer_stop()`. -/
def bob_stop (s : ProcState) : ProcState × List LogEntry :=
  peer_stop s

/-- Iterate `peer_stop` `n` times (discarding logs). -/
def stopN : Nat → ProcState → ProcState
  | 0, s => s
  | n + 1, s => stopN n (peer_stop s).1

/-- Run a sequence of `start_peer` calls (the states a process goes through
under repeated `peer_start`/`bob_start`). -/
def runStarts : List String → ProcState → ProcState
  | [], s => s
  | id :: ids, s => runStarts ids (start_peer id s).2.1

/-! ## Discovery consumer

The task spawned in `run_peer` loops on `tokio::select!` between
`discovery_stream.next()` and `discovery_shutdown.recv()`.  `SelectOutcome`
is the value that select resolves to on one iteration; `discoveryLoopBody`
is the body's decision: the logs it emits and whether the loop continues or
breaks. -/

/-- A discovered peer record (`DiscoveryItem`): its node id, the optional
`user_data` label, and the provenance source string. -/
structure DiscoveredItem where
  nodeId : Nat
  userData : Option String
  provenance : String
deriving DecidableEq, Repr

/-- `iroh::discovery::DiscoveryEvent`, as matched in `run_peer`. -/
inductive DiscoveryEvent where
  | discovered (item : DiscoveredItem)
  | expired (nodeId : Nat)
deriving DecidableEq, Repr

/-- A stream item as `discovery_stream.next()` yields it: `Result<DiscoveryEvent, _>`. -/
inductive StreamResult where
  | ok (ev : DiscoveryEvent)
  | error (err : String)
deriving DecidableEq, Repr

/-- What one `tokio::select!` iteration of the discovery task resolved to:
either a stream item (`some (ok _)`, `some (error _)`, or `none` when the
stream is exhausted) or the shutdown receiver firing. -/
inductive SelectOutcome where
  | streamItem (item : Option StreamResult)
  | shutdownReceived
deriving DecidableEq, Repr

/-- Whether the loop continues to the next iteration or breaks. -/
inductive LoopControl where
  | next
  | exit
deriving DecidableEq, Repr

/-- One iteration of the discovery task's loop, from `run_peer`:
self-discovery is skipped before any logging; a discovered peer logs its
node id, user data and source, plus a success line when `user_data` is
present; expiry and stream errors are logged and the loop continues; stream
exhaustion breaks silently; the shutdown branch logs and breaks. -/
def discoveryLoopBody (myNodeId : Nat) (o : SelectOutcome) :
    LoopControl × List LogEntry :=
  match o with
  | SelectOutcome.streamItem (some (StreamResult.ok (DiscoveryEvent.discovered item))) =>
      if item.nodeId = myNodeId then
        (LoopControl.next, [])
      else
        let base : List LogEntry :=
          [⟨Level.info, LogMsg.peerDiscoveredHeader⟩,
           ⟨Level.info, LogMsg.nodeIdLine item.nodeId⟩,
           ⟨Level.info, LogMsg.userDataLine item.userData⟩,
           ⟨Level.info, LogMsg.sourceLine item.provenance⟩]
        match item.userData with
        | some d => (LoopControl.next, base ++ [⟨Level.info, LogMsg.successDiscovered d⟩])
        | none => (LoopControl.next, base ++ [⟨Level.info, LogMsg.noUserDataNote⟩])
  | SelectOutcome.streamItem (some (StreamResult.ok (DiscoveryEvent.expired nid))) =>
      (LoopControl.next, [⟨Level.info, LogMsg.peerExpired nid⟩])
  | SelectOutcome.streamItem (some (StreamResult.error e)) =>
      (LoopControl.next, [⟨Level.warn, LogMsg.discoveryError e⟩])
  | SelectOutcome.streamItem none =>
      (LoopControl.exit, [])
  | SelectOutcome.shutdownReceived =>
      (LoopControl.exit, [⟨Level.info, LogMsg.discoveryShuttingDown⟩])

/-! ## Summary reporter

The second loop of `run_peer` selects between `interval.tick()` (period 5
seconds) and `shutdown_rx.recv()`.  On a tick it collects
`endpoint.remote_info_iter()` and logs once. -/

/-- An entry of the endpoint's routing-table snapshot
(`endpoint.remote_info_iter()`); only its presence/count is used. -/
structure RemoteInfo where
  nodeId : Nat
deriving DecidableEq, Repr

/-- The reporter's period: `Duration::from_secs(5)`. -/
def summaryPeriodSecs : Nat := 5

/-- One tick of the summary loop: exactly one log line, a warning when the
snapshot is empty, otherwise an info line with the snapshot's size. -/
def summaryTick (remotes : List RemoteInfo) : List LogEntry :=
  if remotes.isEmpty then [⟨Level.warn, LogMsg.noPeersYet⟩]
  else [⟨Level.info, LogMsg.totalPeers remotes.length⟩]

/-- What one iteration of the session's own loop resolved to: a timer tick
(with the routing-table snapshot read at that moment) or the session's
shutdown subscription firing. -/
inductive SessionSelect where
  | tick (remotes : List RemoteInfo)
  | shutdownReceived
deriving DecidableEq, Repr

/-- One iteration of the session body's loop: a tick runs `summaryTick` and
continues; the shutdown branch logs, closes the endpoint (the `Bool` is
"the endpoint was closed in this step") and breaks. -/
def sessionLoopBody (o : SessionSelect) : LoopControl × List LogEntry × Bool :=
  match o with
  | SessionSelect.tick remotes => (LoopControl.next, summaryTick remotes, false)
  | SessionSelect.shutdownReceived =>
      (LoopControl.exit,
        [⟨Level.info, LogMsg.peerShuttingDown⟩, ⟨Level.info, LogMsg.peerShutdownComplete⟩],
        true)

/-! ## Session shutdown fan-out

After binding, `run_peer` launches exactly one task via `tokio::spawn` — the
discovery consumer, holding `shutdown_rx.resubscribe()` — and then runs the
summary loop in the session body itself, holding the session's own
`shutdown_rx`.  `SessionRun` tracks both concurrent units and the pending
signal on each unit's receiver; a broadcast on the shared channel reaches
both receivers. -/

/-- Which concurrent unit of a session a piece of work runs in. -/
inductive SessionUnit where
  | discoveryConsumer
  | summaryReporter
deriving DecidableEq, Repr

/-- The units `run_peer` launches via `tokio::spawn`: only the discovery
consumer (lines 119–161 of `lib.rs`). -/
def runPeerSpawnedUnits : List SessionUnit := [SessionUnit.discoveryConsumer]

/-- The units `run_peer` runs inline in the session body: the summary
reporter loop (lines 163–183 of `lib.rs`). -/
def runPeerInlineUnits : List SessionUnit := [SessionUnit.summaryReporter]

/-- State of one running session's two concurrent units. `discoverySub` and
`sessionSub` are the pending-signal flags of the two broadcast receivers
(the resubscribed one held by the spawned discovery task, and the session's
own `shutdown_rx`). -/
structure SessionRun where
  discoveryStopped : Bool
  sessionStopped : Bool
  endpointOpen : Bool
  discoverySub : Bool
  sessionSub : Bool
deriving DecidableEq, Repr

/-- A `send(())` on the session's shutdown channel: both receivers get the
signal (each receiver of a broadcast channel sees every message). -/
def broadcastShutdown (r : SessionRun) : SessionRun :=
  { r with discoverySub := true, sessionSub := true }

/-- The discovery task's select observing its receiver: with a signal
pending, the shutdown branch breaks the loop. -/
def discoveryObserve (r : SessionRun) : SessionRun :=
  if r.discoverySub then { r with discoveryStopped := true } else r

/-- The session body's select observing `shutdown_rx`: with a signal
pending, the shutdown branch closes the endpoint and breaks, terminating
`run_peer`. -/
def sessionObserve (r : SessionRun) : SessionRun :=
  if r.sessionSub then { r with sessionStopped := true, endpointOpen := false } else r

/-! ## Desktop entry point

`run_desktop` creates a *fresh local* broadcast channel, spawns a Ctrl+C
handler that sends on it, and runs `run_peer` subscribed to that local
channel — not to the process-wide `SHUTDOWN_SENDER`. -/

/-- The setup phase of `run_desktop`: read `PEER_ID` (default "bob"),
allocate a fresh local broadcast channel, record the session subscribed to
it.  Returns the new state, the local channel id, and the identifier. -/
def run_desktop_setup (envPeerId : Option String) (s : ProcState) :
    ProcState × Nat × String :=
  let identifier := envPeerId.getD "bob"
  let s0 := ensureLogging s
  let dchan := s0.nextChan
  let s1 := { s0 with nextChan := s0.nextChan + 1,
                      sessions := s0.sessions ++ [⟨identifier, dchan, false⟩] }
  (s1, dchan, identifier)

/-- The Ctrl+C handler spawned by `run_desktop`: a `send(())` on the local
channel. -/
def ctrlcSend (dchan : Nat) (s : ProcState) : ProcState :=
  sendSignal dchan s

/-- Channel-id well-formedness: the coordinator's channel id, if the
coordinator exists, was allocated from the counter (true of every state the
program reaches, since the counter only grows). -/
def coordBelowNext (s : ProcState) : Bool :=
  match s.coordinator with
  | some cid => decide (cid < s.nextChan)
  | none => true

/-! ## Theorems -/

/-- C1: `peer_start` returns `false` and leaves the process state untouched
(no session appended, no runtime or coordinator created) on a null pointer or
on bytes that are not valid UTF-8, logging only a warning; on a valid
identifier it returns `true` immediately and the state change is exactly that
of `start_peer` on the decoded identifier (the async session's later fate
does not affect the return value). -/
theorem peer_start_input_validation (s : ProcState) (input : Option (List Nat)) :
    (input = none →
      peer_start input s = (false, s, [⟨Level.warn, LogMsg.nullIdentifier⟩])) ∧
    (∀ bs, input = some bs → decodeStr bs = none →
      peer_start input s = (false, s, [⟨Level.warn, LogMsg.invalidUtf8Identifier⟩])) ∧
    (∀ bs id, input = some bs → decodeStr bs = some id →
      (peer_start input s).1 = true ∧
      (peer_start input s).2.1 = (start_peer id s).2.1) := by
  refine ⟨?_, ?_, ?_⟩
  · rintro rfl
    rfl
  · rintro bs rfl hdec
    simp [peer_start, hdec]
  · rintro bs id rfl hdec
    simp [peer_start, hdec, start_peer]

/-- C1 witness: a null pointer and the invalid byte `0xC0` are rejected with
the state unchanged; the valid byte `0x61` ("a") yields `true`. -/
theorem peer_start_input_validation_check :
    peer_start none initState = (false, initState, [⟨Level.warn, LogMsg.nullIdentifier⟩]) ∧
    peer_start (some [0xC0]) initState =
      (false, initState, [⟨Level.warn, LogMsg.invalidUtf8Identifier⟩]) ∧
    (peer_start (some [0x61]) initState).1 = true :=
  ⟨(peer_start_input_validation initState none).1 rfl,
   (peer_start_input_validation initState (some [0xC0])).2.1 [0xC0] rfl (by decide),
   ((peer_start_input_validation initState (some [0x61])).2.2 [0x61] "a" rfl (by decide)).1⟩

/-- C2: when the discovered node id equals the session's own node id, the
discovery loop body emits no log entry at all (in particular no
"Peer discovered" line) and continues with the next event. -/
theorem discovery_self_filter (myNodeId : Nat) (item : DiscoveredItem)
    (h : item.nodeId = myNodeId) :
    discoveryLoopBody myNodeId
      (SelectOutcome.streamItem (some (StreamResult.ok (DiscoveryEvent.discovered item)))) =
      (LoopControl.next, []) := by
  simp [discoveryLoopBody, h]

/-- C2 witness: a concrete self-discovery event is dropped silently. -/
theorem discovery_self_filter_check :
    discoveryLoopBody 7
      (SelectOutcome.streamItem (some (StreamResult.ok
        (DiscoveryEvent.discovered ⟨7, some "alice", "mdns"⟩)))) =
      (LoopControl.next, []) :=
  discovery_self_filter 7 ⟨7, some "alice", "mdns"⟩ rfl

/-- C5: calling `peer_stop` when no coordinator was ever created leaves the
state exactly unchanged and logs a warning ("Peer was never started"); it is
a total function, so it neither panics nor blocks. -/
theorem peer_stop_before_start (s : ProcState) (h : s.coordinator = none) :
    peer_stop s =
      (s, [⟨Level.info, LogMsg.stoppingPeer⟩, ⟨Level.warn, LogMsg.peerNeverStarted⟩]) := by
  simp [peer_stop, h]

/-- C5 witness: `peer_stop` on the initial state (nothing ever started). -/
theorem peer_stop_before_start_check :
    peer_stop initState =
      (initState,
        [⟨Level.info, LogMsg.stoppingPeer⟩, ⟨Level.warn, LogMsg.peerNeverStarted⟩]) :=
  peer_stop_before_start initState rfl

/-- C7: the discovery loop breaks exactly on stream exhaustion (`none`) or on
the shutdown branch; an `error` item is logged as a warning and the loop
continues. -/
theorem discovery_loop_exit_conditions (myNodeId : Nat) (o : SelectOutcome) :
    ((discoveryLoopBody myNodeId o).1 = LoopControl.exit ↔
      o = SelectOutcome.streamItem none ∨ o = SelectOutcome.shutdownReceived) ∧
    (∀ e, discoveryLoopBody myNodeId (SelectOutcome.streamItem (some (StreamResult.error e))) =
      (LoopControl.next, [⟨Level.warn, LogMsg.discoveryError e⟩])) := by
  constructor
  · cases o with
    | streamItem item =>
      cases item with
      | none => simp [discoveryLoopBody]
      | some r =>
        cases r with
        | ok ev =>
          cases ev with
          | discovered it =>
            by_cases h : it.nodeId = myNodeId <;>
              cases hud : it.userData <;>
                simp [discoveryLoopBody, h, hud]
          | expired nid => simp [discoveryLoopBody]
        | error e => simp [discoveryLoopBody]
    | shutdownReceived => simp [discoveryLoopBody]
  · intro e
    rfl

/-- C7 witness: shutdown arrival breaks the loop; a concrete stream error
continues with one warning. -/
theorem discovery_loop_exit_conditions_check :
    (discoveryLoopBody 0 SelectOutcome.shutdownReceived).1 = LoopControl.exit ∧
    discoveryLoopBody 0 (SelectOutcome.streamItem (some (StreamResult.error "timeout"))) =
      (LoopControl.next, [⟨Level.warn, LogMsg.discoveryError "timeout"⟩]) :=
  ⟨(discovery_loop_exit_conditions 0 SelectOutcome.shutdownReceived).1.mpr (Or.inr rfl),
   (discovery_loop_exit_conditions 0 (SelectOutcome.streamItem none)).2 "timeout"⟩

/-- C8: the summary period is 5 seconds, and each tick emits exactly one log
line — a warning when the routing-table snapshot is empty, otherwise an info
line carrying the snapshot's exact size. -/
theorem summary_tick_spec (remotes : List RemoteInfo) :
    summaryPeriodSecs = 5 ∧
    (summaryTick remotes).length = 1 ∧
    (remotes = [] → summaryTick remotes = [⟨Level.warn, LogMsg.noPeersYet⟩]) ∧
    (remotes ≠ [] →
      summaryTick remotes = [⟨Level.info, LogMsg.totalPeers remotes.length⟩]) := by
  refine ⟨rfl, ?_, ?_, ?_⟩
  · unfold summaryTick
    split <;> rfl
  · rintro rfl
    rfl
  · intro h
    simp [summaryTick, h]

/-- C8 witness: the empty snapshot warns; a two-element snapshot logs the
count 2 at info level. -/
theorem summary_tick_spec_check :
    summaryTick [] = [⟨Level.warn, LogMsg.noPeersYet⟩] ∧
    summaryTick [⟨3⟩, ⟨4⟩] = [⟨Level.info, LogMsg.totalPeers 2⟩] :=
  ⟨(summary_tick_spec []).2.2.1 rfl,
   (summary_tick_spec [⟨3⟩, ⟨4⟩]).2.2.2 (by simp)⟩

/-- C9: the legacy entry points are observably equivalent to the general
ones: `bob_start` agrees with `peer_start` on the UTF-8 bytes of "bob"
(0x62 0x6F 0x62) in return value, state change and logs, on every process
state, and `bob_stop` is definitionally `peer_stop`. -/
theorem legacy_entry_points_equiv (s : ProcState) :
    bob_start s = peer_start (some [0x62, 0x6F, 0x62]) s ∧
    bob_stop s = peer_stop s := by
  constructor
  · have h : decodeStr [0x62, 0x6F, 0x62] = some "bob" := by decide
    simp [bob_start, peer_start, h]
  · rfl

/-- Broadcasting twice on the same channel changes nothing the second time:
setting the delivered flag is idempotent. -/
theorem sendSignal_idem (cid : Nat) (s : ProcState) :
    sendSignal cid (sendSignal cid s) = sendSignal cid s := by
  unfold sendSignal
  simp only [List.map_map]
  have h : ((fun r : SessionRec => if r.chan = cid then { r with signaled := true } else r) ∘
      (fun r : SessionRec => if r.chan = cid then { r with signaled := true } else r)) =
      (fun r : SessionRec => if r.chan = cid then { r with signaled := true } else r) := by
    funext r
    by_cases h : r.chan = cid <;> simp [h]
  rw [h]

/-- `sendSignal` does not touch the coordinator field. -/
theorem sendSignal_coordinator (cid : Nat) (s : ProcState) :
    (sendSignal cid s).coordinator = s.coordinator := rfl

/-- Applying `peer_stop` to an already-stopped state changes nothing. -/
theorem peer_stop_step_idem (s : ProcState) :
    (peer_stop (peer_stop s).1).1 = (peer_stop s).1 := by
  cases hc : s.coordinator with
  | none => simp [peer_stop, hc]
  | some cid =>
    have hc2 : (sendSignal cid s).coordinator = some cid := by
      rw [sendSignal_coordinator, hc]
    simp [peer_stop, hc, hc2, sendSignal_idem]

/-- One or more `peer_stop`s collapse to a single one. -/
theorem stopN_succ_eq (n : Nat) : ∀ s : ProcState, stopN (n + 1) s = (peer_stop s).1 := by
  induction n with
  | zero => intro s; rfl
  | succ m ih =>
    intro s
    have h : stopN (m + 2) s = stopN (m + 1) (peer_stop s).1 := rfl
    rw [h, ih (peer_stop s).1, peer_stop_step_idem]

/-- C4: `peer_stop` is idempotent — for every `n ≥ 1`, calling it `n` times
from any process state yields exactly the state one call yields (the same
subscriber flags, the same singletons); it is a total function, so no call
panics or raises a double-close error. -/
theorem peer_stop_idempotent (s : ProcState) (n : Nat) (h : 1 ≤ n) :
    stopN n s = (peer_stop s).1 := by
  obtain ⟨m, rfl⟩ : ∃ m, n = m + 1 := ⟨n - 1, by omega⟩
  exact stopN_succ_eq m s

/-- C4 witness: three stops equal one stop on a state with a started
session. -/
theorem peer_stop_idempotent_check :
    stopN 3 (start_peer "alice" initState).2.1 =
      (peer_stop (start_peer "alice" initState).2.1).1 :=
  peer_stop_idempotent (start_peer "alice" initState).2.1 3 (by decide)

/-! ## Singleton invariant (C3) -/

/-- The at-most-once invariant of the process singletons: each `OnceLock` has
been initialized at most once (and not at all while still unset), and every
session's subscription is on the unique coordinator channel. -/
def StartInv (s : ProcState) : Prop :=
  s.runtimesCreated ≤ (if s.runtimeInit then 1 else 0) ∧
  s.coordsCreated ≤ (match s.coordinator with | some _ => 1 | none => 0) ∧
  ∀ r ∈ s.sessions, s.coordinator = some r.chan

/-- Field-level description of the state after one `start_peer` call. -/
theorem start_peer_fields (id : String) (s : ProcState) :
    ((start_peer id s).2.1.runtimeInit = true) ∧
    ((start_peer id s).2.1.runtimesCreated =
      if s.runtimeInit then s.runtimesCreated else s.runtimesCreated + 1) ∧
    ((start_peer id s).2.1.coordinator =
      match s.coordinator with | some c => some c | none => some s.nextChan) ∧
    ((start_peer id s).2.1.coordsCreated =
      match s.coordinator with | some _ => s.coordsCreated | none => s.coordsCreated + 1) ∧
    ((start_peer id s).2.1.sessions = s.sessions ++
      [⟨id, (match s.coordinator with | some c => c | none => s.nextChan), false⟩]) := by
  by_cases hl : s.loggingInit <;> by_cases hr : s.runtimeInit <;>
    cases hc : s.coordinator <;>
      simp [start_peer, ensureLogging, ensureRuntime, ensureCoordinator, hl, hr, hc]

/-- `start_peer` preserves the singleton invariant. -/
theorem startInv_preserved (id : String) (s : ProcState) (h : StartInv s) :
    StartInv (start_peer id s).2.1 := by
  obtain ⟨h1, h2, h3⟩ := h
  obtain ⟨f1, f2, f3, f4, f5⟩ := start_peer_fields id s
  refine ⟨?_, ?_, ?_⟩
  · rw [f1, f2]
    by_cases hr : s.runtimeInit <;> simp [hr] at h1 ⊢ <;> omega
  · rw [f3, f4]
    cases hc : s.coordinator with
    | some c => simp only [hc] at h2 ⊢; omega
    | none => simp only [hc] at h2 ⊢; omega
  · intro r hrm
    rw [f5] at hrm
    rw [f3]
    rcases List.mem_append.mp hrm with hold | hnew
    · have h4 := h3 r hold
      cases hc : s.coordinator with
      | some c => simp [hc] at h4 ⊢; exact h4
      | none => simp [hc] at h4
    · simp only [List.mem_singleton] at hnew
      subst hnew
      cases hc : s.coordinator with
      | some c => simp [hc]
      | none => simp [hc]

/-- The invariant holds along any sequence of starts. -/
theorem startInv_runStarts (ids : List String) :
    ∀ s : ProcState, StartInv s → StartInv (runStarts ids s) := by
  induction ids with
  | nil => intro s h; exact h
  | cons id ids ih =>
    intro s h
    exact ih (start_peer id s).2.1 (startInv_preserved id s h)

/-- C3: along every sequence of start calls from the initial process state,
the runtime is created at most once and the shutdown coordinator at most
once (later calls reuse them), and every session ever started subscribes to
the one shared coordinator channel. -/
theorem single_runtime_and_coordinator (ids : List String) :
    (runStarts ids initState).runtimesCreated ≤ 1 ∧
    (runStarts ids initState).coordsCreated ≤ 1 ∧
    ∀ r ∈ (runStarts ids initState).sessions,
      (runStarts ids initState).coordinator = some r.chan := by
  have h0 : StartInv initState := by
    refine ⟨by simp [initState], by simp [initState], ?_⟩
    intro r hr
    simp [initState] at hr
  obtain ⟨h1, h2, h3⟩ := startInv_runStarts ids initState h0
  refine ⟨?_, ?_, h3⟩
  · by_cases hr : (runStarts ids initState).runtimeInit <;> simp [hr] at h1 <;> omega
  · cases hc : (runStarts ids initState).coordinator with
    | some c => simp only [hc] at h2; omega
    | none => simp only [hc] at h2; omega

/-- C6 counterexample: the claim says `run_peer` spawns the summary reporter
as a task; in the source the only unit launched via `tokio::spawn` inside
`run_peer` is the discovery consumer — the summary reporter loop runs inline
in the session body. -/
theorem summary_reporter_not_spawned :
    SessionUnit.summaryReporter ∉ runPeerSpawnedUnits ∧
    SessionUnit.summaryReporter ∈ runPeerInlineUnits := by
  constructor
  · intro h
    simp [runPeerSpawnedUnits] at h
  · simp [runPeerInlineUnits]

/-- C6 (amended): `run_peer` spawns the discovery consumer as a task holding
a resubscribed (hence independent) receiver, while the summary reporter runs
inline in the session body holding the session's own subscription; the two
units hold distinct receivers on the one shared channel, so a single
shutdown broadcast reaches both and both terminate (in either observation
order), and when the session's own subscription fires the endpoint is closed
and the session loop exits. -/
theorem session_shutdown_fanout (r : SessionRun) (myNodeId : Nat) :
    runPeerSpawnedUnits = [SessionUnit.discoveryConsumer] ∧
    runPeerInlineUnits = [SessionUnit.summaryReporter] ∧
    ((sessionObserve (discoveryObserve (broadcastShutdown r))).discoveryStopped = true ∧
     (sessionObserve (discoveryObserve (broadcastShutdown r))).sessionStopped = true ∧
     (sessionObserve (discoveryObserve (broadcastShutdown r))).endpointOpen = false) ∧
    ((discoveryObserve (sessionObserve (broadcastShutdown r))).discoveryStopped = true ∧
     (discoveryObserve (sessionObserve (broadcastShutdown r))).sessionStopped = true ∧
     (discoveryObserve (sessionObserve (broadcastShutdown r))).endpointOpen = false) ∧
    (discoveryLoopBody myNodeId SelectOutcome.shutdownReceived =
      (LoopControl.exit, [⟨Level.info, LogMsg.discoveryShuttingDown⟩])) ∧
    (sessionLoopBody SessionSelect.shutdownReceived =
      (LoopControl.exit,
        [⟨Level.info, LogMsg.peerShuttingDown⟩, ⟨Level.info, LogMsg.peerShutdownComplete⟩],
        true)) := by
  refine ⟨rfl, rfl, ?_, ?_, rfl, rfl⟩ <;>
    simp [broadcastShutdown, discoveryObserve, sessionObserve]

/-! ## Desktop isolation (C10) -/

/-- `ensureLogging` touches only the logging flag. -/
theorem ensureLogging_fields (s : ProcState) :
    (ensureLogging s).coordinator = s.coordinator ∧
    (ensureLogging s).nextChan = s.nextChan ∧
    (ensureLogging s).sessions = s.sessions := by
  unfold ensureLogging
  split <;> exact ⟨rfl, rfl, rfl⟩

/-- C10: `run_desktop` subscribes its session to a freshly created local
channel, not the process-wide coordinator: the coordinator is untouched and
distinct from the new channel, a subsequent `peer_stop` leaves the desktop
session's subscription unsignaled, and only a send on the local (Ctrl+C)
channel signals it. -/
theorem desktop_session_isolated (s : ProcState) (env : Option String)
    (h : coordBelowNext s = true) :
    ((run_desktop_setup env s).1.coordinator = s.coordinator) ∧
    (∀ cid, s.coordinator = some cid → cid ≠ (run_desktop_setup env s).2.1) ∧
    (∃ pre, (peer_stop (run_desktop_setup env s).1).1.sessions =
      pre ++ [⟨(run_desktop_setup env s).2.2, (run_desktop_setup env s).2.1, false⟩]) ∧
    (∃ pre, (ctrlcSend (run_desktop_setup env s).2.1 (run_desktop_setup env s).1).sessions =
      pre ++ [⟨(run_desktop_setup env s).2.2, (run_desktop_setup env s).2.1, true⟩]) := by
  obtain ⟨e1, e2, e3⟩ := ensureLogging_fields s
  have hchan : (run_desktop_setup env s).2.1 = s.nextChan := by
    simp [run_desktop_setup, e2]
  have hcoord : (run_desktop_setup env s).1.coordinator = s.coordinator := by
    simp [run_desktop_setup, e1]
  have hlt : ∀ cid, s.coordinator = some cid → cid < s.nextChan := by
    intro cid hcid
    unfold coordBelowNext at h
    rw [hcid] at h
    simpa using h
  have hne : ∀ cid, s.coordinator = some cid → cid ≠ (run_desktop_setup env s).2.1 := by
    intro cid hcid
    rw [hchan]
    exact Nat.ne_of_lt (hlt cid hcid)
  have hsess : (run_desktop_setup env s).1.sessions =
      s.sessions ++ [⟨(run_desktop_setup env s).2.2, (run_desktop_setup env s).2.1, false⟩] := by
    simp [run_desktop_setup, e2, e3]
  refine ⟨hcoord, hne, ?_, ?_⟩
  · cases hc : s.coordinator with
    | none =>
      refine ⟨s.sessions, ?_⟩
      have hc' : (run_desktop_setup env s).1.coordinator = none := by rw [hcoord, hc]
      simp [peer_stop, hc', hsess]
    | some cid =>
      have hc' : (run_desktop_setup env s).1.coordinator = some cid := by rw [hcoord, hc]
      refine ⟨(s.sessions.map (fun r =>
        if r.chan = cid then { r with signaled := true } else r)), ?_⟩
      have hne' : ¬((run_desktop_setup env s).2.1 = cid) :=
        fun hh => (hne cid hc) hh.symm
      simp [peer_stop, hc', sendSignal, hsess, hne']
  · refine ⟨(s.sessions.map (fun r =>
      if r.chan = (run_desktop_setup env s).2.1 then { r with signaled := true } else r)), ?_⟩
    simp [ctrlcSend, sendSignal, hsess]

/-- C10 witness: from a state with one started session ("alice", coordinator
channel 0), the desktop setup takes fresh channel 1 and `peer_stop` leaves
its subscription unsignaled. -/
theorem desktop_session_isolated_check :
    ∃ pre,
      (peer_stop (run_desktop_setup (some "carol")
        (start_peer "alice" initState).2.1).1).1.sessions =
      pre ++ [⟨"carol", 1, false⟩] :=
  (desktop_session_isolated (start_peer "alice" initState).2.1 (some "carol")
    (by decide)).2.2.1

/-- C3 witness: after starting "alice" then "bob", the runtime was created
once and both sessions subscribe to the single coordinator channel 0. -/
theorem single_runtime_and_coordinator_check :
    (runStarts ["alice", "bob"] initState).runtimesCreated ≤ 1 ∧
    (runStarts ["alice", "bob"] initState).coordinator = some 0 :=
  ⟨(single_runtime_and_coordinator ["alice", "bob"]).1,
   (single_runtime_and_coordinator ["alice", "bob"]).2.2 ⟨"alice", 0, false⟩ (by decide)⟩
